import Mathlib

/-!
Verification of the FinanceSolution financial-math engine (src/app.py).

The pure calculator functions of app.py are embedded over ℚ: Python floats
become rationals, `round(x, k)` becomes rounding of `x * 10^k` to the nearest
integer divided by `10^k`, and the `/api/currency` route's core logic becomes a
total function into `Except`.  Python's `round` breaks ties to even while
Mathlib's `round` breaks ties upward; no statement below depends on the tie
rule (no rounded quantity in any proof or concrete evaluation sits exactly on a
half-cent tie).
-/

/-- Model of Python `round(x, 2)`: round to the nearest hundredth. -/
def round2 (x : ℚ) : ℚ := (round (x * 100) : ℤ) / 100

/-- Model of Python `round(x, 4)`: round to the nearest ten-thousandth. -/
def round4 (x : ℚ) : ℚ := (round (x * 10000) : ℤ) / 10000

/-- A rational is a 2-decimal quantity when rounding to 2 decimals fixes it. -/
def twoDecimal (x : ℚ) : Prop := round2 x = x

lemma round2_zero : round2 0 = 0 := by
  unfold round2
  norm_num

lemma round_rat_mono {x y : ℚ} (h : x ≤ y) : round x ≤ round y := by
  rw [round_eq, round_eq]
  exact Int.floor_le_floor (by linarith)

lemma le_round_of_le {n : ℤ} {x : ℚ} (h : (n : ℚ) ≤ x) : n ≤ round x := by
  have h2 := round_rat_mono h
  rwa [round_intCast] at h2

lemma round_le_of_le {n : ℤ} {x : ℚ} (h : x ≤ (n : ℚ)) : round x ≤ n := by
  have h2 := round_rat_mono h
  rwa [round_intCast] at h2

lemma twoDecimal_round2 (x : ℚ) : twoDecimal (round2 x) := by
  unfold twoDecimal round2
  rw [div_mul_cancel₀ _ (by norm_num : (100 : ℚ) ≠ 0), round_intCast]

lemma abs_round2_sub (x : ℚ) : |round2 x - x| ≤ 1 / 200 := by
  have h := abs_sub_round (x * 100)
  unfold round2
  rw [abs_le] at h ⊢
  constructor <;> [linarith [h.1]; linarith [h.2]]

/-- Model of `emi` (src/app.py lines 8-15).  `months` is the `int` route
parameter, modeled as ℤ. -/
def emi (principal annual_rate_percent : ℚ) (months : ℤ) : ℚ :=
  if principal ≤ 0 ∨ months ≤ 0 then 0
  else
    let r := annual_rate_percent / 100 / 12
    if r = 0 then round2 (principal / months)
    else round2 (principal * r * (1 + r) ^ months / ((1 + r) ^ months - 1))

/-- Result record of `loan_summary`. -/
structure LoanSummary where
  emi : ℚ
  total_payment : ℚ
  total_interest : ℚ
deriving DecidableEq

/-- Model of `loan_summary` (src/app.py lines 17-25). -/
def loan_summary (principal annual_rate_percent : ℚ) (months : ℤ) : LoanSummary :=
  let e := emi principal annual_rate_percent months
  let total_payment := round2 (e * months)
  let total_interest := round2 (total_payment - principal)
  { emi := e, total_payment := total_payment, total_interest := total_interest }

/-- The EMI value of spec §4.1 before the final 2-decimal rounding (the
"unrounded EMI"); comparison definition for the rounding-policy claim C3. -/
def emi_unrounded (principal annual_rate_percent : ℚ) (months : ℤ) : ℚ :=
  if principal ≤ 0 ∨ months ≤ 0 then 0
  else
    let r := annual_rate_percent / 100 / 12
    if r = 0 then principal / months
    else principal * r * (1 + r) ^ months / ((1 + r) ^ months - 1)

lemma emi_eq_round2_unrounded (p r : ℚ) (m : ℤ) :
    emi p r m = round2 (emi_unrounded p r m) := by
  by_cases h : p ≤ 0 ∨ m ≤ 0
  · simp [emi, emi_unrounded, h, round2_zero]
  · by_cases hr : r / 100 / 12 = 0
    · simp [emi, emi_unrounded, h, hr]
    · simp [emi, emi_unrounded, h, hr]

/-- Result record of `gst_breakup`. -/
structure GstResult where
  base : ℚ
  gst : ℚ
  gross : ℚ
deriving DecidableEq

/-- Model of `gst_breakup` (src/app.py lines 27-40). -/
def gst_breakup (amount gst_rate_percent : ℚ) (mode : String := "add") : GstResult :=
  let r := gst_rate_percent / 100
  if mode = "add" then
    let tax := round2 (amount * r)
    { base := amount, gst := tax, gross := round2 (amount + tax) }
  else
    let base := if r ≠ 0 then round2 (amount / (1 + r)) else amount
    { base := base, gst := round2 (amount - base), gross := amount }

lemma gst_breakup_add_def (a rate : ℚ) :
    gst_breakup a rate "add" =
      { base := a, gst := round2 (a * (rate / 100)),
        gross := round2 (a + round2 (a * (rate / 100))) } := by
  simp [gst_breakup]

lemma gst_breakup_not_add_def (a rate : ℚ) (mode : String) (hm : mode ≠ "add") :
    gst_breakup a rate mode =
      { base := if rate / 100 ≠ 0 then round2 (a / (1 + rate / 100)) else a,
        gst := round2 (a - (if rate / 100 ≠ 0 then round2 (a / (1 + rate / 100)) else a)),
        gross := a } := by
  simp only [gst_breakup, if_neg hm]

/-- Result record shared by `fd_maturity` and `rd_maturity`. -/
structure DepositResult where
  maturity : ℚ
  interest : ℚ
deriving DecidableEq

/-- Model of `fd_maturity` (src/app.py lines 42-49).  `years` and
`comp_per_year` are modeled as naturals so that the exponent `n * t` is a
natural number; the Python code computes the same power through float
exponentiation (the claims below only involve whole years). -/
def fd_maturity (principal annual_rate_percent : ℚ) (years : ℕ)
    (comp_per_year : ℕ := 4) : DepositResult :=
  let r := annual_rate_percent / 100
  let n := comp_per_year
  let t := years
  let maturity := principal * (1 + r / n) ^ (n * t)
  let interest := maturity - principal
  { maturity := round2 maturity, interest := round2 interest }

/-- Model of `rd_maturity` (src/app.py lines 51-68).  The `comp_per_year`
parameter appears in the Python signature (default 4) and is never read in the
body; it is kept here unchanged. -/
def rd_maturity (monthly_installment annual_rate_percent : ℚ) (months : ℤ)
    (comp_per_year : ℚ := 4) : DepositResult :=
  if monthly_installment ≤ 0 ∨ months ≤ 0 then { maturity := 0, interest := 0 }
  else
    let r_annual := annual_rate_percent / 100
    let i := r_annual / 12
    if i = 0 then { maturity := round2 (monthly_installment * months), interest := 0 }
    else
      let factor := ((1 + i) ^ months - 1) / i
      let maturity := monthly_installment * factor * (1 + i)
      let deposit := monthly_installment * months
      { maturity := round2 maturity, interest := round2 (maturity - deposit) }

/-- Model of `estimate_credit_score` (src/app.py lines 70-92).  Python's
`int(round(score))` becomes Mathlib's `round : ℚ → ℤ`. -/
def estimate_credit_score (payment_history_pct utilization_pct credit_age_years
    inquiries dti_pct : ℚ) : ℤ :=
  let ph := max 0 (min 100 payment_history_pct)
  let util := max 0 (min 100 utilization_pct)
  let age := max 0 credit_age_years
  let inq := max 0 inquiries
  let dti := max 0 (min 100 dti_pct)
  let s_payment := ph
  let s_util := max 0 (100 - util)
  let s_age := min 100 (age * 10)
  let s_inq := max 0 (100 - inq * 10)
  let s_dti := max 0 (100 - dti)
  let score_100 := 0.35 * s_payment + 0.30 * s_util + 0.15 * s_age
    + 0.10 * s_inq + 0.10 * s_dti
  let score := 300 + (score_100 / 100) * (850 - 300)
  round score

/-- Model of `STATIC_RATES_BASE_USD` (src/app.py lines 110-118). -/
def STATIC_RATES_BASE_USD : List (String × ℚ) :=
  [("INR", 84), ("USD", 1), ("EUR", 91 / 100), ("GBP", 76 / 100),
   ("JPY", 155), ("AUD", 145 / 100), ("CAD", 134 / 100)]

/-- Success record of the `/api/currency` route. -/
structure CurrencyResult where
  converted : ℚ
  rate_used : ℚ
  note : String
deriving DecidableEq

/-- Model of the core logic of the `/api/currency` route (src/app.py lines
166-191), after JSON parsing and after the two currency codes have been
upper-cased by the route (lines 178-179); the `.error` case is the route's
400 "unsupported currency" response. -/
def api_currency (amount : ℚ) (from_code to_code : String)
    (custom_rate : Option ℚ) : Except String CurrencyResult :=
  match custom_rate with
  | some c =>
    .ok { converted := round4 (amount * c), rate_used := c, note := "Custom rate" }
  | none =>
    match STATIC_RATES_BASE_USD.lookup from_code, STATIC_RATES_BASE_USD.lookup to_code with
    | some rf, some rt =>
      .ok { converted := round4 (amount / rf * rt), rate_used := rt / rf,
            note := "Static demo rates" }
    | _, _ =>
      .error "Unsupported currency in static table. Provide custom_rate or update server rates."

/-- Claim C1, counterexample: at `principal = 100`, `rate = 10`, `months = 0`
the code returns `total_interest = round(0 - 100, 2) = -100`, not the claimed
`0.0`. -/
theorem C1_counterexample : (loan_summary 100 10 0).total_interest ≠ 0 := by
  norm_num [loan_summary, emi, round2, round_eq]

/-- Claim C1 (amended): for `months = 0` or `principal ≤ 0`, `loan_summary`
raises no error and returns `emi = 0.0` and `total_payment = 0.0`, but
`total_interest = round(0 - principal, 2)`, which is `0.0` only when the
principal rounds to zero. -/
theorem C1_degenerate_zero (p r : ℚ) (m : ℤ) (h : m = 0 ∨ p ≤ 0) :
    (loan_summary p r m).emi = 0 ∧ (loan_summary p r m).total_payment = 0 ∧
    (loan_summary p r m).total_interest = round2 (0 - p) := by
  have hg : p ≤ 0 ∨ m ≤ 0 := h.elim (fun hm => Or.inr (le_of_eq hm)) Or.inl
  have he : emi p r m = 0 := by simp [emi, hg]
  refine ⟨by simp [loan_summary, he], ?_, ?_⟩
  · simp [loan_summary, he, round2_zero]
  · simp [loan_summary, he, round2_zero]

/-- Witness for C1_degenerate_zero at `principal = 100`, `rate = 10`,
`months = 0`. -/
theorem C1_degenerate_zero_witness :
    (loan_summary 100 10 0).emi = 0 ∧ (loan_summary 100 10 0).total_payment = 0 ∧
    (loan_summary 100 10 0).total_interest = round2 (0 - 100) :=
  C1_degenerate_zero 100 10 0 (Or.inl rfl)

/-- Claim C2, counterexample: in "add" mode the `base` field is the input
amount returned unrounded — at `amount = 1.111`, `rate = 18` the output base
`1.111` is not a 2-decimal quantity. -/
theorem C2_counterexample : ¬ twoDecimal (gst_breakup (1111 / 1000) 18 "add").base := by
  rw [gst_breakup_add_def]
  unfold twoDecimal round2
  norm_num [round_eq]

/-- Claim C2 (amended): `gst_breakup` always rounds the `gst` field to 2
decimals; in "add" mode `gross` is rounded but `base` is the unrounded input
amount, and in "remove" mode `base` is rounded when the rate is nonzero (else
it equals the input) but `gross` is the unrounded input amount. -/
theorem C2_rounding (a rate : ℚ) (mode : String) :
    twoDecimal (gst_breakup a rate mode).gst ∧
    (mode = "add" → (gst_breakup a rate mode).base = a ∧
      twoDecimal (gst_breakup a rate mode).gross) ∧
    (mode ≠ "add" → (gst_breakup a rate mode).gross = a ∧
      (rate ≠ 0 → twoDecimal (gst_breakup a rate mode).base) ∧
      (rate = 0 → (gst_breakup a rate mode).base = a)) := by
  by_cases hm : mode = "add"
  · subst hm
    rw [gst_breakup_add_def]
    exact ⟨twoDecimal_round2 _, fun _ => ⟨rfl, twoDecimal_round2 _⟩,
      fun hc => absurd rfl hc⟩
  · rw [gst_breakup_not_add_def a rate mode hm]
    refine ⟨twoDecimal_round2 _, fun hc => absurd hc hm, fun _ => ⟨rfl, ?_, ?_⟩⟩
    · intro hr
      rw [if_pos (div_ne_zero hr (by norm_num : (100:ℚ) ≠ 0))]
      exact twoDecimal_round2 _
    · intro hr
      subst hr
      norm_num

/-- Witness for C2_rounding at `amount = 5`, `rate = 18`, `mode = "remove"`. -/
theorem C2_rounding_witness :
    twoDecimal (gst_breakup 5 18 "remove").gst ∧
    (gst_breakup 5 18 "remove").gross = 5 ∧
    twoDecimal (gst_breakup 5 18 "remove").base := by
  obtain ⟨h1, _, h3⟩ := C2_rounding 5 18 "remove"
  obtain ⟨hg, hb, _⟩ := h3 (by decide)
  exact ⟨h1, hg, hb (by norm_num)⟩

/-- Claim C3, counterexample: at `principal = 100`, `rate = 0`, `months = 3`
the unrounded EMI is `100/3`, so the claimed policy gives
`round(100/3 * 3, 2) = 100.00`, but the code computes the total from the
already-rounded EMI `33.33` and returns `total_payment = 99.99`. -/
theorem C3_counterexample :
    (loan_summary 100 0 3).total_payment ≠ round2 (emi_unrounded 100 0 3 * 3) := by
  norm_num [loan_summary, emi, emi_unrounded, round2, round_eq]

/-- Claim C3 (amended): `total_payment = round(emi_rounded × months, 2)` and
`total_interest = round(total_payment − principal, 2)`: both totals are
re-derived from the already-rounded EMI (and the already-rounded total), not
from the unrounded EMI. -/
theorem C3_totals_from_rounded_emi (p r : ℚ) (m : ℤ) :
    (loan_summary p r m).emi = round2 (emi_unrounded p r m) ∧
    (loan_summary p r m).total_payment
      = round2 (round2 (emi_unrounded p r m) * m) ∧
    (loan_summary p r m).total_interest
      = round2 ((loan_summary p r m).total_payment - p) := by
  have he := emi_eq_round2_unrounded p r m
  refine ⟨by simp [loan_summary, he], ?_, ?_⟩
  · simp [loan_summary, he]
  · simp [loan_summary]

/-- Claim C4: every mode other than "add" gets "remove" semantics — the result
coincides with the `mode = "remove"` result, with `gross = amount`,
`base = round(amount / (1 + rate/100), 2)` when the rate is nonzero (else
`base = amount`), and `gst = round(amount − base, 2)`. -/
theorem C4_fallback_remove (a rate : ℚ) (mode : String) (hm : mode ≠ "add") :
    gst_breakup a rate mode = gst_breakup a rate "remove" ∧
    (gst_breakup a rate mode).gross = a ∧
    (rate ≠ 0 → (gst_breakup a rate mode).base = round2 (a / (1 + rate / 100))) ∧
    (rate = 0 → (gst_breakup a rate mode).base = a) ∧
    (gst_breakup a rate mode).gst = round2 (a - (gst_breakup a rate mode).base) := by
  have hrem : ("remove" : String) ≠ "add" := by decide
  rw [gst_breakup_not_add_def a rate mode hm, gst_breakup_not_add_def a rate "remove" hrem]
  refine ⟨rfl, rfl, ?_, ?_, rfl⟩
  · intro hr
    simp only [if_pos (div_ne_zero hr (by norm_num : (100:ℚ) ≠ 0))]
  · intro hr
    subst hr
    norm_num

/-- Witness for C4_fallback_remove at `amount = 1180`, `rate = 18`,
`mode = "xyz"`. -/
theorem C4_fallback_remove_witness :
    gst_breakup 1180 18 "xyz" = gst_breakup 1180 18 "remove" ∧
    (gst_breakup 1180 18 "xyz").gross = 1180 ∧
    (gst_breakup 1180 18 "xyz").base = round2 (1180 / (1 + 18 / 100)) := by
  obtain ⟨h1, h2, h3, _, _⟩ := C4_fallback_remove 1180 18 "xyz" (by decide)
  exact ⟨h1, h2, h3 (by norm_num)⟩

lemma clamp100_mono {a b : ℚ} (h : a ≤ b) : max 0 (min 100 a) ≤ max 0 (min 100 b) :=
  max_le_max le_rfl (min_le_min le_rfl h)

lemma score_affine_mono {x y : ℚ} (h : x ≤ y) :
    300 + (x / 100) * (850 - 300) ≤ 300 + (y / 100) * (850 - 300) := by
  nlinarith [h]

/-- Claim C5: `estimate_credit_score` is monotone non-decreasing in the payment
history percentage, monotone non-increasing in utilization, inquiries and DTI
(other inputs fixed), and its value always lies in [300, 850]. -/
theorem C5_monotone_and_bounded (ph ph' util util' age inq inq' dti dti' : ℚ) :
    (ph ≤ ph' → estimate_credit_score ph util age inq dti
      ≤ estimate_credit_score ph' util age inq dti) ∧
    (util ≤ util' → estimate_credit_score ph util' age inq dti
      ≤ estimate_credit_score ph util age inq dti) ∧
    (inq ≤ inq' → estimate_credit_score ph util age inq' dti
      ≤ estimate_credit_score ph util age inq dti) ∧
    (dti ≤ dti' → estimate_credit_score ph util age inq dti'
      ≤ estimate_credit_score ph util age inq dti) ∧
    300 ≤ estimate_credit_score ph util age inq dti ∧
    estimate_credit_score ph util age inq dti ≤ 850 := by
  refine ⟨?_, ?_, ?_, ?_, ?_, ?_⟩
  · intro h
    simp only [estimate_credit_score]
    apply round_rat_mono
    apply score_affine_mono
    have hc := clamp100_mono h
    linarith
  · intro h
    simp only [estimate_credit_score]
    apply round_rat_mono
    apply score_affine_mono
    have hc := clamp100_mono h
    have hu : max 0 (100 - max 0 (min 100 util')) ≤ max 0 (100 - max 0 (min 100 util)) :=
      max_le_max le_rfl (by linarith)
    linarith
  · intro h
    simp only [estimate_credit_score]
    apply round_rat_mono
    apply score_affine_mono
    have hc : max 0 inq ≤ max 0 inq' := max_le_max le_rfl h
    have hi : max 0 (100 - max 0 inq' * 10) ≤ max 0 (100 - max 0 inq * 10) :=
      max_le_max le_rfl (by linarith)
    linarith
  · intro h
    simp only [estimate_credit_score]
    apply round_rat_mono
    apply score_affine_mono
    have hc := clamp100_mono h
    have hd : max 0 (100 - max 0 (min 100 dti')) ≤ max 0 (100 - max 0 (min 100 dti)) :=
      max_le_max le_rfl (by linarith)
    linarith
  · simp only [estimate_credit_score]
    apply le_round_of_le
    have b1a : (0:ℚ) ≤ max 0 (min 100 ph) := le_max_left _ _
    have b2a : (0:ℚ) ≤ max 0 (100 - max 0 (min 100 util)) := le_max_left _ _
    have b3a : (0:ℚ) ≤ min 100 (max 0 age * 10) :=
      le_min (by norm_num) (mul_nonneg (le_max_left _ _) (by norm_num))
    have b4a : (0:ℚ) ≤ max 0 (100 - max 0 inq * 10) := le_max_left _ _
    have b5a : (0:ℚ) ≤ max 0 (100 - max 0 (min 100 dti)) := le_max_left _ _
    push_cast
    nlinarith [b1a, b2a, b3a, b4a, b5a]
  · simp only [estimate_credit_score]
    apply round_le_of_le
    have b1b : max 0 (min 100 ph) ≤ 100 := max_le (by norm_num) (min_le_left _ _)
    have b2b : max 0 (100 - max 0 (min 100 util)) ≤ 100 :=
      max_le (by norm_num) (by linarith [le_max_left (0:ℚ) (min 100 util)])
    have b3b : min 100 (max 0 age * 10) ≤ 100 := min_le_left _ _
    have b4b : max 0 (100 - max 0 inq * 10) ≤ 100 :=
      max_le (by norm_num)
        (by nlinarith [le_max_left (0:ℚ) inq])
    have b5b : max 0 (100 - max 0 (min 100 dti)) ≤ 100 :=
      max_le (by norm_num) (by linarith [le_max_left (0:ℚ) (min 100 dti)])
    push_cast
    nlinarith [b1b, b2b, b3b, b4b, b5b]

/-- Witness for C5_monotone_and_bounded at concrete inputs. -/
theorem C5_monotone_and_bounded_witness :
    estimate_credit_score 50 30 5 2 20 ≤ estimate_credit_score 60 30 5 2 20 ∧
    estimate_credit_score 50 40 5 2 20 ≤ estimate_credit_score 50 30 5 2 20 ∧
    estimate_credit_score 50 30 5 4 20 ≤ estimate_credit_score 50 30 5 2 20 ∧
    estimate_credit_score 50 30 5 2 30 ≤ estimate_credit_score 50 30 5 2 20 ∧
    300 ≤ estimate_credit_score 50 30 5 2 20 ∧
    estimate_credit_score 50 30 5 2 20 ≤ 850 := by
  obtain ⟨m1, m2, m3, m4, lo, hi⟩ := C5_monotone_and_bounded 50 60 30 40 5 2 4 20 30
  exact ⟨m1 (by norm_num), m2 (by norm_num), m3 (by norm_num), m4 (by norm_num), lo, hi⟩

/-- Claim C6: for every amount and every rate ≥ 0, adding GST and then
removing it from the resulting gross returns a base within rounding tolerance
(three half-cents, 3/200) of the original amount. -/
theorem C6_gst_roundtrip (amount rate : ℚ) (h : 0 ≤ rate) :
    |(gst_breakup (gst_breakup amount rate "add").gross rate "remove").base - amount|
      ≤ 3 / 200 := by
  have hrem : ("remove" : String) ≠ "add" := by decide
  rw [gst_breakup_add_def]
  by_cases hr : rate = 0
  · subst hr
    rw [gst_breakup_not_add_def _ _ _ hrem]
    norm_num [round2_zero]
    calc |round2 amount - amount| ≤ 1 / 200 := abs_round2_sub amount
      _ ≤ 3 / 200 := by norm_num
  · have hr100 : rate / 100 ≠ 0 := div_ne_zero hr (by norm_num)
    have hrpos : 0 < rate / 100 := by positivity
    rw [gst_breakup_not_add_def _ _ _ hrem]
    simp only [if_pos hr100]
    set r := rate / 100 with hrdef
    set T := round2 (amount * r) with hT
    set G := round2 (amount + T) with hG
    set B := round2 (G / (1 + r)) with hB
    have h1 : |T - amount * r| ≤ 1 / 200 := abs_round2_sub (amount * r)
    have h2 : |G - (amount + T)| ≤ 1 / 200 := abs_round2_sub (amount + T)
    have h3 : |B - G / (1 + r)| ≤ 1 / 200 := abs_round2_sub (G / (1 + r))
    have hGb : |G - amount * (1 + r)| ≤ 1 / 100 := by
      have he : G - amount * (1 + r) = (G - (amount + T)) + (T - amount * r) := by ring
      rw [he]
      calc |(G - (amount + T)) + (T - amount * r)|
          ≤ |G - (amount + T)| + |T - amount * r| := abs_add _ _
        _ ≤ 1 / 100 := by linarith
    have h1r : (0:ℚ) < 1 + r := by linarith
    have hdiv : |G / (1 + r) - amount| ≤ 1 / 100 := by
      have hne : (1 + r) ≠ 0 := ne_of_gt h1r
      have he : (G - amount * (1 + r)) / (1 + r) = G / (1 + r) - amount := by
        rw [sub_div, mul_div_cancel_right₀ _ hne]
      rw [← he, abs_div, abs_of_pos h1r]
      calc |G - amount * (1 + r)| / (1 + r) ≤ |G - amount * (1 + r)| :=
            div_le_self (abs_nonneg _) (by linarith)
        _ ≤ 1 / 100 := hGb
    calc |B - amount| ≤ |B - G / (1 + r)| + |G / (1 + r) - amount| := abs_sub_le _ _ _
      _ ≤ 3 / 200 := by linarith

/-- Witness for C6_gst_roundtrip at `amount = 1000`, `rate = 18`. -/
theorem C6_gst_roundtrip_witness :
    |(gst_breakup (gst_breakup 1000 18 "add").gross 18 "remove").base - 1000|
      ≤ 3 / 200 :=
  C6_gst_roundtrip 1000 18 (by norm_num)

/-- Claim C7, counterexample: the code rounds the maturity to 2 decimals, so at
`principal = 1.111` (a 3-decimal amount), `rate = 7`, `years = 0`, `n = 4` it
returns `1.11`, not the principal exactly. -/
theorem C7_counterexample : (fd_maturity (1111 / 1000) 7 0 4).maturity ≠ 1111 / 1000 := by
  norm_num [fd_maturity, round2, round_eq]

/-- Claim C7 (amended): for every principal, rate, and compounding frequency
`n ≥ 1`, zero elapsed years give no growth: the returned maturity is
`round(P, 2)`, hence exactly `P` whenever `P` has at most 2 decimal places.
(At `n = 0` the Python code instead raises `ZeroDivisionError` on `r / n`.) -/
theorem C7_fd_zero_years (P r : ℚ) (n : ℕ) (hn : 0 < n) :
    (fd_maturity P r 0 n).maturity = round2 P := by
  simp [fd_maturity]

/-- Witness for C7_fd_zero_years at `P = 10000`, `rate = 7`, `n = 4`. -/
theorem C7_fd_zero_years_witness : (fd_maturity 10000 7 0 4).maturity = round2 10000 :=
  C7_fd_zero_years 10000 7 4 (by norm_num)

/-- Claim C8: with no custom rate, the conversion errors exactly when at least
one code is missing from the static table (and produces no conversion), and
with both codes present it returns
`converted = round((amount / rate_from) * rate_to, 4)` and
`rate_used = rate_to / rate_from`. -/
theorem C8_static_conversion (amount : ℚ) (from_code to_code : String) :
    ((∃ msg, api_currency amount from_code to_code none = .error msg) ↔
      (STATIC_RATES_BASE_USD.lookup from_code = none ∨
       STATIC_RATES_BASE_USD.lookup to_code = none)) ∧
    (∀ rf rt, STATIC_RATES_BASE_USD.lookup from_code = some rf →
      STATIC_RATES_BASE_USD.lookup to_code = some rt →
      api_currency amount from_code to_code none =
        .ok { converted := round4 (amount / rf * rt), rate_used := rt / rf,
              note := "Static demo rates" }) := by
  constructor
  · cases h1 : STATIC_RATES_BASE_USD.lookup from_code with
    | none => simp [api_currency, h1]
    | some rf =>
      cases h2 : STATIC_RATES_BASE_USD.lookup to_code with
      | none => simp [api_currency, h1, h2]
      | some rt => simp [api_currency, h1, h2]
  · intro rf rt h1 h2
    simp [api_currency, h1, h2]

/-- Witness for C8_static_conversion: `USD → INR` converts at the static rate
and an unknown code yields the error. -/
theorem C8_static_conversion_witness :
    api_currency 100 "USD" "INR" none =
      .ok { converted := round4 (100 / 1 * 84), rate_used := 84 / 1,
            note := "Static demo rates" } ∧
    (∃ msg, api_currency 100 "XYZ" "INR" none = .error msg) := by
  refine ⟨(C8_static_conversion 100 "USD" "INR").2 1 84 rfl rfl, ?_⟩
  exact (C8_static_conversion 100 "XYZ" "INR").1.mpr (Or.inl rfl)

/-- Claim C9: a supplied custom rate short-circuits the static table: for every
pair of codes (present in the table or not) the result is
`converted = round(amount * customRate, 4)` with `rate_used = customRate`, and
the "unsupported currency" error branch is unreachable. -/
theorem C9_custom_rate (amount : ℚ) (from_code to_code : String) (c : ℚ) :
    api_currency amount from_code to_code (some c) =
      .ok { converted := round4 (amount * c), rate_used := c, note := "Custom rate" } ∧
    ¬∃ msg, api_currency amount from_code to_code (some c) = .error msg := by
  constructor
  · rfl
  · rintro ⟨msg, hmsg⟩
    simp [api_currency] at hmsg

/-- Claim C10: `rd_maturity` never reads its `comp_per_year` parameter — any
two values of it give identical results. -/
theorem C10_comp_per_year_unused (m r : ℚ) (months : ℤ) (c1 c2 : ℚ) :
    rd_maturity m r months c1 = rd_maturity m r months c2 := rfl
